import Mathlib

/-!
Verification development for the rSqoop staging module
(`rsqoop_runner/module.py`): a shallow embedding of its schema
translation, row normalization, load-statement generation, count
reconciliation and pipeline sequencing, together with theorems settling
the specification claims against it.

Modelling conventions:
* Machine integers are `Int`/`Nat` (the Python code never overflows in
  the modelled paths); float arithmetic of the count check is modelled
  over `ℚ` (the claims at issue involve values where IEEE-double and
  exact rational comparison agree).
* Fallible Python code (raising exceptions) is modelled with
  `Except RunError`.
* Python single-character `str.replace` is modelled by a character map
  (`replaceChar`), which coincides with Python semantics for
  one-character patterns and replacements.
* Database / S3 side effects are modelled as an `Effect` trace;
  the environment (catalog contents, target existence, row counts,
  configuration) is an explicit `Env` record.
-/

deriving instance DecidableEq for Except

/-- Errors the module can raise. -/
inductive RunError
  | configError (msg : String)
  | typeError (msg : String)
  | countCheckFailed (diff : Int) (pct : ℚ)
deriving DecidableEq

/-- One row of the catalog query result: column_name, data_type,
character_maximum_length, numeric_precision, numeric_scale
(`field[0]` .. `field[4]` in the source). -/
structure SchemaField where
  name : String
  data_type : String
  char_max_len : Option Int
  num_precision : Option Int
  num_scale : Option Int
deriving DecidableEq

/-- An entry of `select_fields`: either a plain field name or a
`(source_field, override_field)` pair, as accepted by `get_fields`. -/
inductive SelectField
  | plain (s : String)
  | renamed (s t : String)
deriving DecidableEq

/-- Observable remote calls made by the module, in order. -/
inductive Effect
  | catalogQuery (table : String)
  | tgtTableExists (table : String)
  | tgtExec (sql : String)
  | srcCountQuery (table : String)
  | srcExtractQuery (sql : String)
  | tgtKeepAlive
  | srcKeepAlive
  | s3Upload (key : String)
  | tgtCountQuery (table : String)
deriving DecidableEq

/-- The external world as the module observes it: the resolved source
schema, target-table existence, the two row counts, and configuration
held on the `rSqoop` object (`self.s3_env`, buckets, AWS credentials,
`self.from_date` already formatted with `strftime('%Y-%m-%d %H:%M')`). -/
structure Env where
  src_schema : List SchemaField
  tgt_exists : Bool
  src_count : Int
  tgt_count : Int
  s3_env : String
  s3_bucket : String
  aws_access_key : String
  aws_secret_key : String
  from_date : Option String
deriving DecidableEq

/-! ## String helpers (kernel-friendly embeddings of the Python string
operations used by the source) -/

/-- Embedding of Python `s.replace(a, b)` for one-character `a`, `b`. -/
def replaceChar (s : String) (a b : Char) : String :=
  String.mk (s.data.map fun c => if c = a then b else c)

/-- Embedding of Python `sep.join(xs)`. -/
def strJoin (sep : String) : List String → String
  | [] => ""
  | [x] => x
  | x :: y :: xs => x ++ sep ++ strJoin sep (y :: xs)

/-- Concatenation of a list of strings (the `+=` accumulation loop of
`clone_staging_table`). -/
def strConcat : List String → String
  | [] => ""
  | x :: xs => x ++ strConcat xs

/-- Embedding of Python `str.lower()` (ASCII, which covers every string
the module compares). -/
def strLower (s : String) : String :=
  String.mk (s.data.map Char.toLower)

theorem str_append_assoc (a b c : String) : (a ++ b) ++ c = a ++ (b ++ c) := by
  cases a; cases b; cases c
  exact congrArg String.mk (List.append_assoc _ _ _)

theorem str_empty_append (s : String) : "" ++ s = s := by
  cases s; rfl

/-- `tok` occurs as a contiguous substring of `body`. -/
def containsTok (body tok : String) : Prop :=
  ∃ pre post : String, body = pre ++ (tok ++ post)

theorem containsTok_cons (a b tok : String) (h : containsTok b tok) :
    containsTok (a ++ b) tok := by
  obtain ⟨p, q, hpq⟩ := h
  exact ⟨a ++ p, q, by rw [hpq, str_append_assoc]⟩

theorem containsTok_left (a b tok : String) (h : containsTok a tok) :
    containsTok (a ++ b) tok := by
  obtain ⟨p, q, hpq⟩ := h
  exact ⟨p, q ++ b, by rw [hpq, str_append_assoc, str_append_assoc]⟩

theorem str_append_empty (s : String) : s ++ "" = s := by
  cases s; exact congrArg String.mk (List.append_nil _)

theorem containsTok_self (tok rest : String) : containsTok (tok ++ rest) tok :=
  ⟨"", rest, (str_empty_append _).symm⟩

theorem containsTok_suffix (a tok : String) : containsTok (a ++ tok) tok :=
  ⟨a, "", by rw [str_append_empty]⟩

/-! ## TypeTranslator (`clone_staging_table`, lines 173-252) -/

def rs_date_types : List String :=
  ["timestamp with time zone", "time without time zone",
   "datetime", "smalldatetime", "date", "datetime2"]

def rs_char_types : List String :=
  ["timestamp", "char", "varchar", "character", "nchar", "bpchar",
   "character varying", "nvarchar", "text"]

def rs_num_types : List String := ["decimal", "numeric"]

def rs_smallint_types : List String := ["bit", "tinyint", "smallint", "int2"]

def rs_int_types : List String := ["int", "integer", "int4"]

def rs_bigint_types : List String := ["bigint", "int8"]

def rs_other_types : List String :=
  ["real", "double precision", "boolean", "float4", "float8",
   "float", "date", "bool", "timestamp without time zone"]

def rs_reserved_names : List String := ["partition"]

/-- The `field_type` chosen inside the character branch:
`"varchar"` for `text`/`timestamp`, the declared type otherwise. -/
def char_field_type (data_type : String) : String :=
  if data_type = "text" ∨ data_type = "timestamp" then "varchar" else data_type

/-- Embedding of Python `'%s' % x` for an optional integer:
`str(None)` is the string `"None"`. -/
def optIntStr : Option Int → String
  | none => "None"
  | some n => toString n

/-- The per-column type mapping of `clone_staging_table`.  In the
character branch with a non-`timestamp` type and a `None` declared
length the source evaluates `int(field[2])`, i.e. `int(None)`, which
raises `TypeError`; the `else 'varchar(2000)'` arm of the source's
conditional expression requires exactly that combination and is
therefore unreachable. -/
def translate_data_type (f : SchemaField) : Except RunError String :=
  if f.data_type ∈ rs_date_types then Except.ok "timestamp"
  else if f.data_type = "uuid" then Except.ok "varchar(50)"
  else if f.data_type ∈ rs_char_types then
    let field_type := char_field_type f.data_type
    if f.data_type = "timestamp" then
      Except.ok (field_type ++ " (" ++ toString (8 : Int) ++ ")")
    else
      match f.char_max_len with
      | none => Except.error (RunError.typeError
          "int() argument must be a string, a bytes-like object or a number, not NoneType")
      | some n =>
        let size : Int := if n > 65535 then 65535 else if n < 0 then 2000 else n
        Except.ok (field_type ++ " (" ++ toString size ++ ")")
  else if f.data_type ∈ rs_smallint_types then Except.ok "smallint"
  else if f.data_type ∈ rs_int_types then Except.ok "integer"
  else if f.data_type ∈ rs_bigint_types then Except.ok "bigint"
  else if f.data_type ∈ rs_num_types then
    match f.num_precision with
    | some p => Except.ok (f.data_type ++ " (" ++ toString p ++ "," ++ optIntStr f.num_scale ++ ")")
    | none => Except.ok f.data_type
  else if f.data_type ∈ rs_other_types then Except.ok f.data_type
  else if f.data_type = "uniqueidentifier" then Except.ok "varchar(36)"
  else Except.ok "varchar(2000)"

/-! ## CountReconciler (`check_tgt_count`, lines 509-533) -/

/-- Embedding of `check_tgt_count` (counts already fetched; the model
takes them as arguments).  Division is over `ℚ`. -/
def check_tgt_count (src_cnt tgt_cnt : Int) (pct_threshold : ℚ) :
    Except RunError (Int × ℚ) :=
  let diff := src_cnt - tgt_cnt
  let pct_diff : ℚ := (diff : ℚ) / (if src_cnt ≠ 0 then (src_cnt : ℚ) else 1)
  if pct_diff > pct_threshold then
    Except.error (RunError.countCheckFailed diff pct_diff)
  else
    Except.ok (diff, pct_diff)

/-- The relative difference exactly as the specification words it:
`(source_count - target_count) / source_count`, with the denominator
replaced by 1 when `source_count = 0`. -/
def spec_relative_diff (src_cnt tgt_cnt : Int) : ℚ :=
  ((src_cnt : ℚ) - (tgt_cnt : ℚ)) / (if src_cnt = 0 then 1 else (src_cnt : ℚ))

/-! ## RowExtractor value normalization (`source_to_s3`, lines 338-347) -/

/-- Scalar values as the database driver hands them to the extraction
loop. -/
inductive PyValue
  | pyBool (b : Bool)
  | pyInt (n : Int)
  | pyStr (s : String)
  | pyNone
deriving DecidableEq

/-- Embedding of Python `str(v)` on the driver value variants. -/
def pyToString : PyValue → String
  | PyValue.pyBool true => "True"
  | PyValue.pyBool false => "False"
  | PyValue.pyInt n => toString n
  | PyValue.pyStr s => s
  | PyValue.pyNone => "None"

def isPyBool : PyValue → Bool
  | PyValue.pyBool _ => true
  | _ => false

/-- The per-scalar normalization of the extraction loop:
`int(s)` for a `bool`, otherwise
`str(s).replace('\n', ' ').replace('\t', ' ').replace('\r', ' ').replace('\v', ' ')`
(`'\x0B'` is the vertical tab). -/
def normalize_value (v : PyValue) : PyValue :=
  match v with
  | PyValue.pyBool b => PyValue.pyInt (if b then 1 else 0)
  | w => PyValue.pyStr
      (replaceChar (replaceChar (replaceChar (replaceChar (pyToString w)
        '\n' ' ') '\t' ' ') '\r' ' ') '\x0B' ' ')

/-! ## Field selection (`get_fields`, `get_field_values`,
`get_select_fields`, lines 93-163) -/

/-- Embedding of Python `str(i[0])` for a select-field entry: the first
element of a tuple entry, the first character of a plain string entry
(a plain empty select-field name would raise `IndexError` in the
source; the model returns the empty string there, a case no claim
touches). -/
def selHeadStr : SelectField → String
  | SelectField.plain s => String.mk (s.data.take 1)
  | SelectField.renamed s _ => s

/-- Embedding of `get_field_values`: entries equal to the key (Python
`i == key_to_find`, true only for a plain string entry equal to the
key) or whose head, lower-cased, equals the lower-cased key. -/
def get_field_values (iterables : List SelectField) (key_to_find : String) :
    List SelectField :=
  iterables.filter fun i =>
    (match i with
     | SelectField.plain s => s == key_to_find
     | SelectField.renamed _ _ => false) ||
    strLower (selHeadStr i) == strLower key_to_find

/-- The output name a matched select entry imposes:
`selected_field[0][1]` for a tuple entry, `selected_field[0]` itself
for a plain entry. -/
def selOutName : SelectField → String
  | SelectField.plain s => s
  | SelectField.renamed _ t => t

/-- Embedding of `get_fields`: with falsy `select_fields` (Python
`None` or `[]`) all schema fields pass unchanged; otherwise each schema
field is kept only when `get_field_values` matches it, renamed to the
matched entry's output name. -/
def get_fields (select_fields : Option (List SelectField))
    (schema : List SchemaField) : List SchemaField :=
  match select_fields with
  | none => schema
  | some [] => schema
  | some sfs =>
    schema.filterMap fun field =>
      match get_field_values sfs (strLower field.name) with
      | [] => none
      | sel :: _ => some { field with name := selOutName sel }

/-- Embedding of `get_select_fields`: the comma-joined original names
of the schema fields that match some select entry. -/
def get_select_fields (schema : List SchemaField)
    (select_fields : List SelectField) : String :=
  strJoin ","
    (((schema.filter fun field =>
        !(get_field_values select_fields (strLower field.name)).isEmpty).map
      fun field => field.name))

/-! ## Extraction query (`source_to_s3`, lines 310-322) -/

/-- The optional incremental filter clause: built only when both
`date_fields` and `self.from_date` are truthy, as the disjunction of
`field > '<from_date>'` comparisons. -/
def build_filter_str (date_fields : List String) (from_date : Option String) :
    String :=
  match from_date with
  | none => ""
  | some fd =>
    if date_fields = [] then ""
    else "where " ++ strJoin " or "
      (date_fields.map fun d => d ++ " > '" ++ fd ++ "'")

/-- The extraction query
`f"select {select_str} from {src_table} with (nolock) {filter_str}"`. -/
def build_ce_sql (select_str src_table : String) (date_fields : List String)
    (from_date : Option String) : String :=
  "select " ++ select_str ++ " from " ++ src_table ++
    " with (nolock) " ++ build_filter_str date_fields from_date

/-! ## BulkLoader statement generation (`s3_to_redshift`, lines 396-479,
and `grant_std_access`, lines 568-580) -/

/-- The COPY options list: GZIP, MANIFEST, REMOVEQUOTES joined by a
space (empty string when no option is set). -/
def copy_options_str (gzip manifest remove_quotes : Bool) : String :=
  let options :=
    (if gzip then ["GZIP"] else []) ++
      ((if manifest then ["MANIFEST"] else []) ++
        (if remove_quotes then ["REMOVEQUOTES"] else []))
  if options.length > 0 then strJoin " " options else ""

/-- The `NULL AS 'None'` clause every generated COPY statement carries. -/
def null_as_none : String := "NULL AS 'None'"

/-- Full-refresh COPY, delimiter variant (the non-`csv_fmt` template). -/
def cp_sql_full_delim (tgt_table s3_path aws_id aws_key delim merr opts : String) :
    String :=
  "\n                COPY " ++ tgt_table ++ " from '" ++ s3_path ++
    "'\n                CREDENTIALS 'aws_access_key_id=" ++ aws_id ++
    ";aws_secret_access_key=" ++ aws_key ++
    "'\n                delimiter '" ++ delim ++
    "'\n                dateformat 'YYYY-MM-DD'\n                " ++
    null_as_none ++
    "\n                truncatecolumns\n                maxerror " ++
    merr ++ "\n                " ++ opts ++ ";\n"

/-- Full-refresh COPY, `csv_fmt` variant (no delimiter line). -/
def cp_sql_full_csv (tgt_table s3_path aws_id aws_key merr opts : String) :
    String :=
  "\n                COPY " ++ tgt_table ++ " from '" ++ s3_path ++
    "'\n                CREDENTIALS 'aws_access_key_id=" ++ aws_id ++
    ";aws_secret_access_key=" ++ aws_key ++
    "'\n                dateformat 'YYYY-MM-DD'\n                " ++
    null_as_none ++
    "\n                truncatecolumns\n                maxerror " ++
    merr ++ "\n                " ++ opts ++ ";\n"

/-- Incremental COPY into `tmp`, delimiter variant. -/
def cp_sql_incr_delim (s3_path aws_id aws_key delim merr opts : String) : String :=
  "\n                COPY tmp from '" ++ s3_path ++
    "'\n                CREDENTIALS 'aws_access_key_id=" ++ aws_id ++
    ";aws_secret_access_key=" ++ aws_key ++
    "'\n                delimiter '" ++ delim ++
    "'\n                dateformat 'YYYY-MM-DD'\n                " ++
    null_as_none ++
    "\n                truncatecolumns\n                maxerror " ++
    merr ++ " " ++ opts ++ ";\n"

/-- Incremental COPY into `tmp`, `csv_fmt` variant. -/
def cp_sql_incr_csv (s3_path aws_id aws_key merr opts : String) : String :=
  "\n                COPY tmp from '" ++ s3_path ++
    "'\n                CREDENTIALS 'aws_access_key_id=" ++ aws_id ++
    ";aws_secret_access_key=" ++ aws_key ++
    "'\n                dateformat 'YYYY-MM-DD'\n                " ++
    null_as_none ++
    "\n                truncatecolumns\n                maxerror " ++
    merr ++ " " ++ opts ++ ";\n"

/-- Incremental preamble: drop and recreate the temporary shadow table. -/
def pre_sql1_incr (tgt_table : String) : String :=
  "\n                drop table if exists tmp;\n                create temporary table tmp (like " ++
    tgt_table ++ ");\n"

/-- The key-field equi-join condition
`' and '.join([f'tmp.{x} = {tgt_table}.{x}' for x in key_fields])`. -/
def upd_where_str (tgt_table : String) (key_fields : List String) : String :=
  strJoin " and "
    (key_fields.map fun x => "tmp." ++ x ++ " = " ++ tgt_table ++ "." ++ x)

/-- The incremental merge statement: delete overlapping keys, insert
all of `tmp`. -/
def upd_sql_str (tgt_table upd_where : String) : String :=
  "\n                delete\n                from " ++ tgt_table ++
    "\n                where exists\n                  ( select 1\n                    from tmp\n                    where " ++
    upd_where ++
    ");\n                insert into " ++ tgt_table ++
    "\n                select * from tmp;\n"

/-- The full SQL text `pre_sql1 + cp_sql + upd_sql` that `s3_to_redshift`
executes, after template substitution (the source's nested
`if not incremental ... if csv_fmt ...` selection flattened into one
four-way match). -/
def s3_to_redshift_sql (tgt_table s3_path aws_id aws_key : String)
    (incremental csv_fmt : Bool) (maxerror : Nat) (key_fields : List String)
    (delimiter : String) (gzip manifest remove_quotes : Bool) : String :=
  let opts := copy_options_str gzip manifest remove_quotes
  let merr := toString maxerror
  match incremental, csv_fmt with
  | false, false =>
    "delete from " ++ tgt_table ++ ";\n" ++
      cp_sql_full_delim tgt_table s3_path aws_id aws_key delimiter merr opts ++ ""
  | false, true =>
    "delete from " ++ tgt_table ++ ";\n" ++
      cp_sql_full_csv tgt_table s3_path aws_id aws_key merr opts ++ ""
  | true, false =>
    pre_sql1_incr tgt_table ++
      cp_sql_incr_delim s3_path aws_id aws_key delimiter merr opts ++
      upd_sql_str tgt_table (upd_where_str tgt_table key_fields)
  | true, true =>
    pre_sql1_incr tgt_table ++
      cp_sql_incr_csv s3_path aws_id aws_key merr opts ++
      upd_sql_str tgt_table (upd_where_str tgt_table key_fields)

/-- The grant statement applied after every load. -/
def grant_sql (entity : String) : String :=
  "\n            grant all on " ++ entity ++
    " to etl_user;\n            grant all on " ++ entity ++
    " to group ro_users;\n            grant all on " ++ entity ++
    " to group power_users;\n"

/-! ## TableCloner (`clone_staging_table`, lines 165-278) -/

/-- The fixed lineage columns appended to every created table. -/
def meta_fields_sql : String :=
  "etl_source_system_cd varchar(50),\netl_row_create_dts timestamp,\netl_row_update_dts timestamp,\netl_run_id bigint );\n"

/-- The `create table` statement built by the per-field loop of
`clone_staging_table`; propagates the `TypeError` a char-family field
with a `None` length raises inside `translate_data_type`. -/
def build_create_sql (tgt_table : String) (schema : List SchemaField) :
    Except RunError String := do
  let rows ← schema.mapM fun field => do
    let column_name :=
      if strLower field.name ∈ rs_reserved_names then "v_" ++ field.name
      else field.name
    let data_type ← translate_data_type field
    pure ("\"" ++ column_name ++ "\" " ++ data_type ++ ",\n")
  pure ("create table " ++ tgt_table ++ " (\n" ++ strConcat rows ++
    meta_fields_sql)

/-- Embedding of `clone_staging_table`: catalog query and target
existence check always happen first; an empty resolved schema signals
the no-op `(None, None)`; in incremental mode an existing target is
left untouched; otherwise the target is dropped and recreated in one
executed statement (whose execution failures the source swallows; the
`TypeError` of the statement-building loop is raised before the
`try` block and therefore propagates). -/
def clone_staging_table (env : Env) (src_table tgt_table : String)
    (select_fields : Option (List SelectField)) (incremental : Bool) :
    List Effect × Except RunError (Option String × Option String) :=
  let schema := get_fields select_fields env.src_schema
  let e0 := [Effect.catalogQuery src_table, Effect.tgtTableExists tgt_table]
  if schema.length = 0 then
    (e0, Except.ok (none, none))
  else if incremental && env.tgt_exists then
    (e0, Except.ok (some src_table, some tgt_table))
  else
    match build_create_sql tgt_table schema with
    | Except.error e => (e0, Except.error e)
    | Except.ok create_sql =>
      (e0 ++ [Effect.tgtExec ("drop table if exists " ++ tgt_table ++ ";\n" ++
        create_sql)],
       Except.ok (some src_table, some tgt_table))

/-! ## RowExtractor (`source_to_s3`, lines 280-368) -/

/-- Embedding of `source_to_s3`: builds the extraction query (with an
extra catalog query when a truthy field selection is supplied), fetches
the rows, writes and uploads the staged file, with keep-alive pings in
between; returns the trace and the staged S3 path.  Row contents
(normalization, lineage values) live in the staged file, not in the
trace, so `gzip` and `source_system_cd` do not influence it. -/
def source_to_s3 (env : Env) (src_table tgt_table : String)
    (select_fields : Option (List SelectField)) (date_fields : List String)
    (delimiter : String) (gzip : Bool) (source_system_cd : Option String) :
    List Effect × String :=
  let tgt_key := replaceChar tgt_table '.' '-'
  let s3_key := "rsqoop/" ++ env.s3_env ++ "/" ++ tgt_key
  let s3_path := "s3://" ++ env.s3_bucket ++ "/" ++ s3_key
  let pre : List Effect × String :=
    match select_fields with
    | none => ([], "*")
    | some [] => ([], "*")
    | some sfs =>
      ([Effect.catalogQuery src_table], get_select_fields env.src_schema sfs)
  let ce_sql := build_ce_sql pre.2 src_table date_fields env.from_date
  (pre.1 ++ [Effect.srcExtractQuery ce_sql, Effect.tgtKeepAlive,
    Effect.srcKeepAlive, Effect.s3Upload (s3_key ++ "/output.tsv")],
   s3_path ++ "/output.tsv")

/-! ## BulkLoader (`s3_to_redshift`, lines 370-495) -/

/-- Embedding of `s3_to_redshift`: the configuration check
`if incremental and not key_fields` is evaluated before anything else;
on success the composed load statement and the follow-up grant are
executed against the target. -/
def s3_to_redshift (env : Env) (tgt_table s3_path : String)
    (incremental csv_fmt gzip manifest : Bool) (maxerror : Nat)
    (key_fields : List String) (delimiter : String) (remove_quotes : Bool) :
    Except RunError (List Effect) :=
  if incremental && key_fields.isEmpty then
    Except.error (RunError.configError "incremental loads require key fields")
  else
    Except.ok [Effect.tgtExec (s3_to_redshift_sql tgt_table s3_path
        env.aws_access_key env.aws_secret_key incremental csv_fmt maxerror
        key_fields delimiter gzip manifest remove_quotes),
      Effect.tgtExec (grant_sql tgt_table)]

/-! ## MigrationPipeline (`stage_to_redshift`, lines 582-639) -/

/-- Embedding of `stage_to_redshift`, returning the trace of remote
calls performed before completion or before the first raised error,
plus that error if one occurred.  Note that when `clone_staging_table`
signals the no-op `(None, None)` the source only logs
`'no source found, no work to do!'` and falls through: every later step
still runs. -/
def stage_to_redshift (env : Env) (src_table tgt_table : String)
    (incremental gzip : Bool) (date_fields : List String) (delimiter : String)
    (remove_quotes : Bool) (key_fields : List String)
    (select_fields : Option (List SelectField)) (source_system_cd : Option String) :
    List Effect × Option RunError :=
  let c := clone_staging_table env src_table tgt_table select_fields incremental
  match c.2 with
  | Except.error err => (c.1, some err)
  | Except.ok _names =>
    let e2 := c.1 ++ [Effect.srcCountQuery src_table]
    let x := source_to_s3 env src_table tgt_table select_fields date_fields
      delimiter gzip source_system_cd
    match s3_to_redshift env tgt_table x.2 incremental false gzip false 0
        key_fields delimiter remove_quotes with
    | Except.error err => (e2 ++ x.1, some err)
    | Except.ok e4 =>
      let e5 := e2 ++ x.1 ++ e4 ++ [Effect.tgtCountQuery tgt_table]
      (e5, match check_tgt_count env.src_count env.tgt_count (1 / 100) with
        | Except.error err => some err
        | Except.ok _ => none)

/-! ## Concrete environments used by witnesses and counterexamples -/

/-- An environment whose source table has one integer column and whose
target table already exists. -/
def env0 : Env :=
  { src_schema := [⟨"id", "int", none, some 10, some 0⟩],
    tgt_exists := true, src_count := 5, tgt_count := 5,
    s3_env := "prod", s3_bucket := "bkt",
    aws_access_key := "AKI", aws_secret_key := "SEC", from_date := none }

/-- An environment whose source table is absent: the catalog query
resolves to an empty schema. -/
def envE : Env :=
  { src_schema := [], tgt_exists := false, src_count := 0, tgt_count := 0,
    s3_env := "prod", s3_bucket := "bkt",
    aws_access_key := "AKI", aws_secret_key := "SEC", from_date := none }

/-! ## Supporting lemmas -/

theorem catalog_query_in_clone (env : Env) (s t : String)
    (sf : Option (List SelectField)) (inc : Bool) :
    Effect.catalogQuery s ∈ (clone_staging_table env s t sf inc).1 := by
  unfold clone_staging_table
  repeat' first
  | (solve | simp)
  | split
  | dsimp only

theorem replace_chain_data (l : List Char) :
    ((((l.map fun c => if c = '\n' then ' ' else c).map
        fun c => if c = '\t' then ' ' else c).map
        fun c => if c = '\r' then ' ' else c).map
        fun c => if c = '\x0B' then ' ' else c) =
      l.map fun c =>
        if c = '\n' ∨ c = '\t' ∨ c = '\r' ∨ c = '\x0B' then ' ' else c := by
  induction l with
  | nil => rfl
  | cons c t ih =>
    simp only [List.map_cons]
    rw [ih]
    congr 1
    by_cases h1 : c = '\n'
    · subst h1; decide
    by_cases h2 : c = '\t'
    · subst h2; decide
    by_cases h3 : c = '\r'
    · subst h3; decide
    by_cases h4 : c = '\x0B'
    · subst h4; decide
    simp [h1, h2, h3, h4]

/-- The four chained single-character replacements equal one pass that
maps each of the four whitespace-control characters to a space. -/
theorem replace_chain_eq (s : String) :
    replaceChar (replaceChar (replaceChar (replaceChar s '\n' ' ') '\t' ' ')
        '\r' ' ') '\x0B' ' ' =
      String.mk (s.data.map fun c =>
        if c = '\n' ∨ c = '\t' ∨ c = '\r' ∨ c = '\x0B' then ' ' else c) := by
  cases s with
  | mk l => exact congrArg String.mk (replace_chain_data l)

/-! ## Claim theorems -/

/-- C3 (counterexample to totality, supporting the code_bug verdict):
translating a char-family column whose declared character length is
absent does not produce `varchar(2000)`; it raises `TypeError` from
`int(None)` before the `varchar(2000)` arm of the source's conditional
expression can apply.  Two failing inputs: an unbounded `text` column
and a `nvarchar` column with a NULL length. -/
theorem rsqoop_C3_type_error :
    translate_data_type ⟨"notes", "text", none, none, none⟩ =
      Except.error (RunError.typeError
        "int() argument must be a string, a bytes-like object or a number, not NoneType") ∧
    translate_data_type ⟨"comment", "nvarchar", none, none, none⟩ =
      Except.error (RunError.typeError
        "int() argument must be a string, a bytes-like object or a number, not NoneType") := by
  decide

/-- C6: for every char-family column with a present declared length
`n`, the emitted width is `65535` when `n > 65535`, `2000` when
`n < 0`, and `n` unchanged otherwise; a column whose declared type is
the character-family spelling `timestamp` is emitted as a varchar of
fixed width 8. -/
theorem rsqoop_C6 :
    (∀ (name : String) (dtype : String) (n : Int) (p sc : Option Int),
       dtype ∈ rs_char_types → dtype ≠ "timestamp" →
       translate_data_type ⟨name, dtype, some n, p, sc⟩ =
         Except.ok (char_field_type dtype ++ " (" ++
           toString (if n > 65535 then (65535 : Int) else if n < 0 then 2000 else n) ++ ")")) ∧
    (∀ (name : String) (cl p sc : Option Int),
       translate_data_type ⟨name, "timestamp", cl, p, sc⟩ =
         Except.ok "varchar (8)") := by
  constructor
  · intro name dtype n p sc h h2
    fin_cases h
    · exact absurd rfl h2
    all_goals rfl
  · intro name cl p sc
    rfl

/-- C6 witness: the clamping theorem applied at concrete columns —
an over-long `varchar`, a `nvarchar(-1)` (varchar(max)), and an
in-range `char(10)`. -/
theorem rsqoop_C6_witness :
    ("varchar" ∈ rs_char_types ∧ ("varchar" : String) ≠ "timestamp") ∧
    translate_data_type ⟨"c", "varchar", some 100000, none, none⟩ =
      Except.ok "varchar (65535)" ∧
    translate_data_type ⟨"c", "nvarchar", some (-1), none, none⟩ =
      Except.ok "nvarchar (2000)" ∧
    translate_data_type ⟨"c", "char", some 10, none, none⟩ =
      Except.ok "char (10)" := by
  refine ⟨⟨by decide, by decide⟩, ?_, ?_, ?_⟩
  · have h := rsqoop_C6.1 "c" "varchar" 100000 none none (by decide) (by decide)
    rw [h]; rfl
  · have h := rsqoop_C6.1 "c" "nvarchar" (-1) none none (by decide) (by decide)
    rw [h]; rfl
  · have h := rsqoop_C6.1 "c" "char" 10 none none (by decide) (by decide)
    rw [h]; rfl

/-- C9: a `uniqueidentifier` column translates to `varchar(36)`, a
`uuid` column to `varchar(50)`, and the two target types are distinct,
for every column name, length, precision and scale. -/
theorem rsqoop_C9 :
    (∀ (name : String) (cl p sc : Option Int),
       translate_data_type ⟨name, "uniqueidentifier", cl, p, sc⟩ =
         Except.ok "varchar(36)") ∧
    (∀ (name : String) (cl p sc : Option Int),
       translate_data_type ⟨name, "uuid", cl, p, sc⟩ =
         Except.ok "varchar(50)") ∧
    ("varchar(36)" : String) ≠ "varchar(50)" :=
  ⟨fun _ _ _ _ => rfl, fun _ _ _ _ => rfl, by decide⟩

/-- C4 counterexample: with a zero-row source and one target row the
count check does **not** raise — `relative_diff` is `-1`, which is not
greater than the `1/100` threshold, so `check_tgt_count` returns
normally, contradicting the claimed failure. -/
theorem rsqoop_C4_counterexample :
    check_tgt_count 0 1 (1 / 100) = Except.ok (-1, -1) := by
  unfold check_tgt_count
  norm_num

/-- C4 (amended): for `source_count = 0` and `target_count = 0` the
count check passes; for `source_count = 0` and `target_count = 1` the
check **also passes** rather than raising — the difference is
well-defined via the denominator-1 fallback (`relative_diff = -1`) but
a target surplus never exceeds the threshold, which only fires on a
target deficit. -/
theorem rsqoop_C4_amended :
    check_tgt_count 0 0 (1 / 100) = Except.ok (0, 0) ∧
    check_tgt_count 0 1 (1 / 100) = Except.ok (-1, -1) := by
  unfold check_tgt_count
  constructor <;> norm_num

/-- C5: `check_tgt_count` computes exactly the specification's
relative difference — `(source_count - target_count) / source_count`
with denominator 1 when `source_count = 0` — and raises exactly when it
strictly exceeds the threshold; at threshold `1/100`,
`(1000, 990)` sits exactly on the threshold and passes, `(1000, 989)`
exceeds it and fails. -/
theorem rsqoop_C5 :
    (∀ (src_cnt tgt_cnt : Int) (t : ℚ),
      check_tgt_count src_cnt tgt_cnt t =
        if spec_relative_diff src_cnt tgt_cnt > t then
          Except.error (RunError.countCheckFailed (src_cnt - tgt_cnt)
            (spec_relative_diff src_cnt tgt_cnt))
        else Except.ok (src_cnt - tgt_cnt, spec_relative_diff src_cnt tgt_cnt)) ∧
    check_tgt_count 1000 990 (1 / 100) = Except.ok (10, 1 / 100) ∧
    check_tgt_count 1000 989 (1 / 100) =
      Except.error (RunError.countCheckFailed 11 (11 / 1000)) := by
  refine ⟨?_, ?_, ?_⟩
  · intro src tgt t
    have hpct : ((src - tgt : Int) : ℚ) / (if src ≠ 0 then (src : ℚ) else 1) =
        spec_relative_diff src tgt := by
      unfold spec_relative_diff
      by_cases h : src = 0 <;> simp [h]
    simp only [check_tgt_count]
    rw [hpct]
  · unfold check_tgt_count; norm_num
  · unfold check_tgt_count; norm_num

/-- C7: normalization maps `True` to the integer 1 and `False` to 0,
and maps every non-boolean value to its string form with each newline,
tab, carriage-return and vertical-tab character replaced by a single
space, all other characters unchanged. -/
theorem rsqoop_C7 :
    normalize_value (PyValue.pyBool true) = PyValue.pyInt 1 ∧
    normalize_value (PyValue.pyBool false) = PyValue.pyInt 0 ∧
    ∀ v : PyValue, isPyBool v = false →
      normalize_value v = PyValue.pyStr (String.mk ((pyToString v).data.map
        fun c => if c = '\n' ∨ c = '\t' ∨ c = '\r' ∨ c = '\x0B' then ' ' else c)) := by
  refine ⟨rfl, rfl, ?_⟩
  intro v hv
  cases v with
  | pyBool b => simp [isPyBool] at hv
  | pyInt n => exact congrArg PyValue.pyStr (replace_chain_eq _)
  | pyStr s => exact congrArg PyValue.pyStr (replace_chain_eq _)
  | pyNone => exact congrArg PyValue.pyStr (replace_chain_eq _)

/-- C7 witness: the normalization theorem applied to a concrete
non-boolean string value containing a newline and a tab. -/
theorem rsqoop_C7_witness :
    isPyBool (PyValue.pyStr "a\nb\tc") = false ∧
    normalize_value (PyValue.pyStr "a\nb\tc") =
      PyValue.pyStr (String.mk (("a\nb\tc" : String).data.map
        fun c => if c = '\n' ∨ c = '\t' ∨ c = '\r' ∨ c = '\x0B' then ' ' else c)) :=
  ⟨rfl, rsqoop_C7.2.2 (PyValue.pyStr "a\nb\tc") rfl⟩

/-- C8: when `date_fields` is non-empty and a watermark date is
supplied, the extraction query carries a `where` clause that is the
`or`-join over all listed date fields of `field > '<from_date>'`; when
the watermark or the field list is absent, no filter clause is added. -/
theorem rsqoop_C8 :
    (∀ (select_str src_table fd : String) (dfs : List String), dfs ≠ [] →
       build_ce_sql select_str src_table dfs (some fd) =
         "select " ++ select_str ++ " from " ++ src_table ++ " with (nolock) " ++
           ("where " ++ strJoin " or " (dfs.map fun d => d ++ " > '" ++ fd ++ "'"))) ∧
    (∀ (select_str src_table : String) (dfs : List String),
       build_ce_sql select_str src_table dfs none =
         "select " ++ select_str ++ " from " ++ src_table ++ " with (nolock) ") ∧
    (∀ (select_str src_table fd : String),
       build_ce_sql select_str src_table [] (some fd) =
         "select " ++ select_str ++ " from " ++ src_table ++ " with (nolock) ") := by
  refine ⟨?_, ?_, ?_⟩
  · intro sel src fd dfs h
    unfold build_ce_sql build_filter_str
    dsimp only
    rw [if_neg h]
  · intro sel src dfs
    exact str_append_empty _
  · intro sel src fd
    exact str_append_empty _

/-- C8 witness: the filter theorem applied to two concrete date fields
and a concrete watermark. -/
theorem rsqoop_C8_witness :
    (["upd_dts", "create_dts"] ≠ ([] : List String)) ∧
    build_ce_sql "*" "dbo.t" ["upd_dts", "create_dts"] (some "2020-01-02 03:04") =
      "select * from dbo.t with (nolock) where upd_dts > '2020-01-02 03:04' or create_dts > '2020-01-02 03:04'" := by
  refine ⟨by decide, ?_⟩
  have h := rsqoop_C8.1 "*" "dbo.t" "2020-01-02 03:04" ["upd_dts", "create_dts"]
    (by decide)
  rw [h]; rfl

/-- C10: SQL NULL (Python `None`) is normalized to exactly the
four-character string `None`, and every COPY statement the loader
generates — full-refresh and incremental, delimited and fixed-format,
under every option combination — declares `NULL AS 'None'` as its null
sentinel. -/
theorem rsqoop_C10 :
    normalize_value PyValue.pyNone = PyValue.pyStr "None" ∧
    ("None" : String).data.length = 4 ∧
    ∀ (tgt_table s3_path aws_id aws_key : String) (incremental csv_fmt : Bool)
      (maxerror : Nat) (key_fields : List String) (delimiter : String)
      (gzip manifest remove_quotes : Bool),
      containsTok (s3_to_redshift_sql tgt_table s3_path aws_id aws_key
        incremental csv_fmt maxerror key_fields delimiter gzip manifest
        remove_quotes) null_as_none := by
  refine ⟨rfl, rfl, ?_⟩
  intro tgt path ai ak inc csv me kf delim gz mf rq
  cases inc <;> cases csv <;> simp only [s3_to_redshift_sql]
  · apply containsTok_left
    apply containsTok_cons
    unfold cp_sql_full_delim
    apply containsTok_left
    apply containsTok_left
    apply containsTok_left
    apply containsTok_left
    apply containsTok_left
    exact containsTok_suffix _ _
  · apply containsTok_left
    apply containsTok_cons
    unfold cp_sql_full_csv
    apply containsTok_left
    apply containsTok_left
    apply containsTok_left
    apply containsTok_left
    apply containsTok_left
    exact containsTok_suffix _ _
  · apply containsTok_left
    apply containsTok_cons
    unfold cp_sql_incr_delim
    apply containsTok_left
    apply containsTok_left
    apply containsTok_left
    apply containsTok_left
    apply containsTok_left
    exact containsTok_suffix _ _
  · apply containsTok_left
    apply containsTok_cons
    unfold cp_sql_incr_csv
    apply containsTok_left
    apply containsTok_left
    apply containsTok_left
    apply containsTok_left
    apply containsTok_left
    exact containsTok_suffix _ _

/-- C1 counterexample: running the pipeline with `incremental = true`
and empty `key_fields` does raise the configuration error, but only
after the catalog query was issued, the source count taken, the
extraction query run and the staged file uploaded — contradicting the
claim that the error precedes every remote call. -/
theorem rsqoop_C1_counterexample :
    (stage_to_redshift env0 "dbo.t" "public.t" true true [] "\t" false [] none none).2 =
      some (RunError.configError "incremental loads require key fields") ∧
    Effect.catalogQuery "dbo.t" ∈
      (stage_to_redshift env0 "dbo.t" "public.t" true true [] "\t" false [] none none).1 ∧
    Effect.srcCountQuery "dbo.t" ∈
      (stage_to_redshift env0 "dbo.t" "public.t" true true [] "\t" false [] none none).1 ∧
    Effect.srcExtractQuery "select * from dbo.t with (nolock) " ∈
      (stage_to_redshift env0 "dbo.t" "public.t" true true [] "\t" false [] none none).1 ∧
    Effect.s3Upload "rsqoop/prod/public-t/output.tsv" ∈
      (stage_to_redshift env0 "dbo.t" "public.t" true true [] "\t" false [] none none).1 := by
  decide

/-- C1 (amended): with `incremental = true` and empty `key_fields`
(and a clone step that returned normally), `stage_to_redshift` raises
exactly the configuration error `incremental loads require key fields`
inside the load step, before any COPY/load SQL or reconciliation query
is issued — the whole effect trace is exactly the clone, source-count
and extraction/staging effects — but after those remote calls (the
catalog query among them) have already been made. -/
theorem rsqoop_C1_amended (env : Env) (src_table tgt_table delimiter : String)
    (gzip remove_quotes : Bool) (date_fields : List String)
    (select_fields : Option (List SelectField)) (source_system_cd : Option String)
    (names : Option String × Option String)
    (hclone : (clone_staging_table env src_table tgt_table select_fields true).2 =
      Except.ok names) :
    stage_to_redshift env src_table tgt_table true gzip date_fields delimiter
        remove_quotes [] select_fields source_system_cd =
      ((clone_staging_table env src_table tgt_table select_fields true).1 ++
          [Effect.srcCountQuery src_table] ++
          (source_to_s3 env src_table tgt_table select_fields date_fields
            delimiter gzip source_system_cd).1,
        some (RunError.configError "incremental loads require key fields")) ∧
    Effect.catalogQuery src_table ∈
      (stage_to_redshift env src_table tgt_table true gzip date_fields delimiter
        remove_quotes [] select_fields source_system_cd).1 := by
  have hmain : stage_to_redshift env src_table tgt_table true gzip date_fields
      delimiter remove_quotes [] select_fields source_system_cd =
      ((clone_staging_table env src_table tgt_table select_fields true).1 ++
          [Effect.srcCountQuery src_table] ++
          (source_to_s3 env src_table tgt_table select_fields date_fields
            delimiter gzip source_system_cd).1,
        some (RunError.configError "incremental loads require key fields")) := by
    simp only [stage_to_redshift, hclone, s3_to_redshift, List.isEmpty_nil,
      Bool.and_true, Bool.and_self, if_true]
  refine ⟨hmain, ?_⟩
  rw [hmain]
  exact List.mem_append_left _
    (List.mem_append_left _ (catalog_query_in_clone env src_table tgt_table
      select_fields true))

/-- C1 witness: the amended theorem applied in the concrete environment
`env0` (existing target, one-column source). -/
theorem rsqoop_C1_witness :
    (clone_staging_table env0 "dbo.t" "public.t" none true).2 =
      Except.ok (some "dbo.t", some "public.t") ∧
    (stage_to_redshift env0 "dbo.t" "public.t" true true [] "\t" false [] none none).2 =
      some (RunError.configError "incremental loads require key fields") ∧
    Effect.catalogQuery "dbo.t" ∈
      (stage_to_redshift env0 "dbo.t" "public.t" true true [] "\t" false [] none none).1 := by
  have h := rsqoop_C1_amended env0 "dbo.t" "public.t" "\t" true false [] none none
    (some "dbo.t", some "public.t") (by decide)
  exact ⟨by decide, by rw [h.1], h.2⟩

set_option maxRecDepth 10000 in
/-- C2 (code_bug evidence): with an absent source table the clone step
does signal the no-op `(None, None)` without raising, but the pipeline
does **not** skip the remaining steps: the trace still contains the
source-count query, the extraction query, the staged upload, the
post-load grant execution and the reconciliation count query —
the source merely logs `'no source found, no work to do!'` and falls
through. -/
theorem rsqoop_C2_no_skip :
    (clone_staging_table envE "dbo.gone" "public.gone" none false).2 =
      Except.ok (none, none) ∧
    Effect.srcCountQuery "dbo.gone" ∈
      (stage_to_redshift envE "dbo.gone" "public.gone" false true [] "\t" false [] none none).1 ∧
    Effect.srcExtractQuery "select * from dbo.gone with (nolock) " ∈
      (stage_to_redshift envE "dbo.gone" "public.gone" false true [] "\t" false [] none none).1 ∧
    Effect.s3Upload "rsqoop/prod/public-gone/output.tsv" ∈
      (stage_to_redshift envE "dbo.gone" "public.gone" false true [] "\t" false [] none none).1 ∧
    Effect.tgtExec (grant_sql "public.gone") ∈
      (stage_to_redshift envE "dbo.gone" "public.gone" false true [] "\t" false [] none none).1 ∧
    Effect.tgtCountQuery "public.gone" ∈
      (stage_to_redshift envE "dbo.gone" "public.gone" false true [] "\t" false [] none none).1 := by
  decide
